import Mathlib

/-!
Shallow embedding of `src/ImageDrop.js` (quill-image-drop-module): the
`ImageDrop` drop/paste importer and the `ImageResize` resize controller.
Machine numbers in the source are JS numbers that stay integral on every
path we model, so they are embedded as `Int`/`Nat`; the few genuinely
fractional quantities (bounding-box coordinates, the width/height ratio
fed to `Math.round`) are embedded as `ℚ` with Mathlib's `round`
(`round q = ⌊q + 1/2⌋`, the same half-up rule as JS `Math.round`).
-/

namespace QuillImageDrop

/-! ## Drop/Paste importer (`class ImageDrop`) -/

/-- One `insertEmbed(index, kind, value, source)` call observed on the host
editor. -/
structure InsertEmbed where
  index : Nat
  kind : String
  value : String
  source : String
  deriving DecidableEq

/-- JS `x || y` where `x` is either `undefined` (`none`) or a number:
`undefined` and `0` are falsy.  This is the exact truthiness used by
`insert`: `(this.quill.getSelection() || {}).index || this.quill.getLength()`. -/
def jsOrNat (x : Option Nat) (y : Nat) : Nat :=
  match x with
  | none => y
  | some i => if i = 0 then y else i

/-- Index chosen by `insert(dataUrl)` (line 61): the selection's `index`
run through JS `||` against `getLength()`.  `sel` is `getSelection()`
projected to its `index` field (`none` when the selection is null). -/
def insertIndex (sel : Option Nat) (len : Nat) : Nat :=
  jsOrNat sel len

/-- `insert(dataUrl)` (lines 60–63): one `insertEmbed(index, 'image',
dataUrl, 'user')` call at `insertIndex`. -/
def insert (sel : Option Nat) (len : Nat) (dataUrl : String) : InsertEmbed :=
  ⟨insertIndex sel len, "image", dataUrl, "user"⟩

/-- The alternatives of the MIME regex
`/^image\/(gif|jpe?g|a?png|svg|webp|bmp|vnd\.microsoft\.icon)/i`:
`jpe?g` contributes `jpg` and `jpeg`, `a?png` contributes `png` and
`apng`, the rest are literal. -/
def mimeAlternatives : List String :=
  ["gif", "jpeg", "jpg", "png", "apng", "svg", "webp", "bmp", "vnd.microsoft.icon"]

/-- ASCII lower-casing of one character, the case folding the regex flag
`i` performs on the ASCII-only pattern. -/
def lowerChar (c : Char) : Char :=
  if 'A' ≤ c ∧ c ≤ 'Z' then Char.ofNat (c.toNat + 32) else c

/-- The test `file.type.match(/^image\/(...)/i)` of `readFiles` (line 73):
a case-insensitive anchored prefix match — the string starts with
`image/` followed by one of the alternatives.  (Embedded over the
character list of the string.) -/
def matchesImageMime (t : String) : Bool :=
  let s := t.data.map lowerChar
  "image/".data.isPrefixOf s &&
    mimeAlternatives.any (fun alt => alt.data.isPrefixOf (s.drop 6))

/-- A file or clipboard item as `readFiles` sees it: a MIME `type` string,
and `blob = some dataUrl` when the item is (convertible by `getAsFile` to)
a `Blob` whose `readAsDataURL` read completes with `dataUrl`; `blob = none`
models a non-`Blob` item or a read that never delivers `onload`. -/
structure FileItem where
  type : String
  blob : Option String
  deriving DecidableEq

/-- Data URIs `readFiles` delivers to its callback for one item
(lines 72–88): nothing unless the MIME regex matches; on a match, the
read result when the item yields a readable `Blob`. -/
def readFile (f : FileItem) : List String :=
  if matchesImageMime f.type then
    match f.blob with
    | some d => [d]
    | none => []
  else []

/-- `readFiles(files, callback)` (lines 70–89): data URIs delivered to the
callback, one per readable image item. -/
def readFiles (files : List FileItem) : List String :=
  (files.map readFile).flatten

/-- `handleDrop` (lines 28–33) with a non-empty `dataTransfer.files` list:
every data URI read is passed to `insert`, producing `insertEmbed` calls.
`sel`/`len` are the host selection and length at the time each read
completes. -/
def handleDrop (files : List FileItem) (sel : Option Nat) (len : Nat) :
    List InsertEmbed :=
  if files.isEmpty then []
  else (readFiles files).map (insert sel len)

/-- `handlePaste` (lines 39–54): for each data URI read from the clipboard
items, the callback checks `getSelection()`; when a selection exists it
does nothing (the browser pasted natively), otherwise it schedules
`insert(dataUrl)` through `setTimeout(..., 0)`.  The result is the list of
data URIs whose insertion gets scheduled.  `selAtRead` is the selection
observed when the read completes. -/
def handlePasteScheduled (items : List FileItem) (selAtRead : Option Nat) :
    List String :=
  if items.isEmpty then []
  else (readFiles items).filterMap fun d =>
    match selAtRead with
    | some _ => none
    | none => some d

/-! ## Resize controller drag arithmetic (`handleDrag`, lines 255–273) -/

/-- Width set by `handleDrag` for a left-side handle (line 263), exactly as
written in the source: `Math.round(this.preDragWidth - evt.clientX -
this.dragStartX)`.  All operands are integral, so `Math.round` is the
identity. -/
def dragWidthLeft (preDragWidth clientX dragStartX : Int) : Int :=
  preDragWidth - clientX - dragStartX

/-- Width set by `handleDrag` for a right-side handle (line 267):
`Math.round(this.preDragWidth + evt.clientX - this.dragStartX)`. -/
def dragWidthRight (preDragWidth clientX dragStartX : Int) : Int :=
  preDragWidth + clientX - dragStartX

/-! ## Resize controller state (`class ImageResize`)

The controller's mutable instance fields (`img`, `boxes`, `display`,
`dragBox`, `dragStartX`, `preDragWidth`), the overlay elements it appends
to `document.body`, and the event listeners it registers are embedded as
one explicit state record.  DOM elements are identified by the `Nat`
allocated when `document.createElement` runs (`nextId`); style writes
(`positionBoxes`, `setUserSelect` beyond the recorded value) touch only
element styles and carry no state the claims mention, so positioning is
embedded separately as the pure functions further down. -/

/-- Target of an `addEventListener` call: the whole `document`, the quill
root, or one of the handle boxes. -/
inductive LTarget
  | doc
  | root
  | box (id : Nat)
  deriving DecidableEq

/-- One registered DOM listener: target, event type, callback (named by
the bound method it refers to), and the capture flag (third argument of
`addEventListener`/`removeEventListener`, `false` when omitted). -/
structure Listener where
  target : LTarget
  etype : String
  callback : String
  capture : Bool
  deriving DecidableEq

/-- DOM `addEventListener`: registering an identical (target, type,
callback, capture) tuple twice is a no-op. -/
def addListener (ls : List Listener) (l : Listener) : List Listener :=
  if ls.contains l then ls else ls ++ [l]

/-- DOM `removeEventListener`: removes only a listener whose (target,
type, callback, capture) tuple matches exactly; in particular a call that
omits the capture argument (capture `false`) does not remove a listener
registered with capture `true`. -/
def removeListener (ls : List Listener) (l : Listener) : List Listener :=
  ls.filter (· ≠ l)

/-- The `ImageResize` instance state together with the DOM state it owns. -/
structure RState where
  /-- `this.img`: id of the selected image element, `undefined` when idle. -/
  img : Option Nat
  /-- `this.boxes`: handle element ids, in creation order. -/
  boxes : List Nat
  /-- `this.display`: the size-display element id, when created. -/
  display : Option Nat
  /-- `this.dragBox`: the handle the current drag grabbed. -/
  dragBox : Option Nat
  /-- `this.dragStartX`: `evt.clientX` at drag start. -/
  dragStartX : Option Int
  /-- `this.preDragWidth`: image width recorded at drag start. -/
  preDragWidth : Option Int
  /-- Ids of module-created elements currently appended to `document.body`. -/
  body : List Nat
  /-- Currently registered event listeners. -/
  listeners : List Listener
  /-- Fresh-id counter for `document.createElement`. -/
  nextId : Nat
  /-- `this.options.displaySize`. -/
  displaySize : Bool
  /-- Cursor value last written by `setCursor`. -/
  cursor : String
  /-- Value last written by `setUserSelect`. -/
  userSelect : String
  /-- Explicit `width` of each image element (`img.width`), by id; `0`
  plays JS-falsy in `this.img.width || this.img.naturalWidth`. -/
  widths : List (Nat × Int)
  deriving DecidableEq

/-- State of a freshly constructed controller (constructor, lines
101-117): no selection, no overlays, only the permanent root `click`
listener. -/
def initState (displaySize : Bool) (widths : List (Nat × Int)) : RState :=
  { img := none, boxes := [], display := none, dragBox := none
    dragStartX := none, preDragWidth := none, body := [], nextId := 0
    listeners := [⟨.root, "click", "handleClick", false⟩]
    displaySize := displaySize, cursor := "", userSelect := "", widths := widths }

/-- `setUserSelect(value)` (lines 275–286): records the user-select value
written to the root and `<html>` styles. -/
def setUserSelect (s : RState) (value : String) : RState :=
  { s with userSelect := value }

/-- `setCursor(value)` (lines 288–294): records the cursor written to
`document.body`, the image and the root. -/
def setCursor (s : RState) (value : String) : RState :=
  { s with cursor := value }

/-- `addBox(cursor)` (lines 184–205): creates a handle div, registers its
`mousedown` listener, appends it to `document.body` and pushes it onto
`this.boxes`.  (The style object it writes is pure appearance.) -/
def addBox (s : RState) : RState :=
  { s with
    listeners := addListener s.listeners ⟨.box s.nextId, "mousedown", "handleMousedown", false⟩
    body := s.body ++ [s.nextId]
    boxes := s.boxes ++ [s.nextId]
    nextId := s.nextId + 1 }

/-- `showResizers()` (lines 155–166): user-select off, four handle boxes,
then the deletion watchers — `document.addEventListener('keyup',
this.checkImage, true)` and `this.quill.root.addEventListener('input',
this.checkImage, true)`, both capture-phase. -/
def showResizers (s : RState) : RState :=
  let s := setUserSelect s "none"
  let s := addBox (addBox (addBox (addBox s)))
  { s with
    listeners := addListener
      (addListener s.listeners ⟨.doc, "keyup", "checkImage", true⟩)
      ⟨.root, "input", "checkImage", true⟩ }

/-- `showSizeDisplay()` (lines 302–322): nothing unless
`options.displaySize`; otherwise creates the display div and appends it to
`document.body`. -/
def showSizeDisplay (s : RState) : RState :=
  if !s.displaySize then s
  else
    { s with display := some s.nextId, body := s.body ++ [s.nextId]
             nextId := s.nextId + 1 }

/-- `show(img)` (lines 138–147; `show` is a Lean keyword, hence `showImg`): records the image, then `showResizers`
and `showSizeDisplay`; the trailing `positionBoxes`/`positionSizeDisplay`
calls write element styles only. -/
def showImg (s : RState) (imgId : Nat) : RState :=
  showSizeDisplay (showResizers { s with img := some imgId })

/-- `hideResizers()` (lines 168–182): `removeEventListener` for the
`keyup` and `input` watchers — with NO third argument, hence capture
`false` — then resets user-select and cursor, removes every box from
`document.body`, and clears the three drag-session fields and `boxes`. -/
def hideResizers (s : RState) : RState :=
  let s := { s with
    listeners := removeListener
      (removeListener s.listeners ⟨.doc, "keyup", "checkImage", false⟩)
      ⟨.root, "input", "checkImage", false⟩ }
  let s := setCursor (setUserSelect s "") ""
  { s with
    body := s.body.filter (fun e => ¬ s.boxes.contains e)
    dragBox := none, dragStartX := none, preDragWidth := none
    boxes := [] }

/-- `hideSizeDisplay()` (lines 324–327): `document.body.removeChild(this.display)`
UNCONDITIONALLY — when `this.display` is `undefined` (the `displaySize`
option was off and `showSizeDisplay` returned early), `removeChild`
throws a `TypeError`, embedded here as `Except.error`. -/
def hideSizeDisplay (s : RState) : Except String RState :=
  match s.display with
  | none => .error "TypeError: removeChild parameter is not a Node"
  | some d => .ok { s with body := s.body.filter (· ≠ d), display := none }

/-- `hide()` (lines 149–153): `hideResizers`, then `hideSizeDisplay`, then
`this.img = undefined`.  A throw in `hideSizeDisplay` propagates, so the
selection is not cleared. -/
def hide (s : RState) : Except String RState := do
  let s ← hideSizeDisplay (hideResizers s)
  return { s with img := none }

/-- A click's target as `handleClick` classifies it: `some i` when
`evt.target` is an `<img>` element with id `i`, `none` otherwise. -/
def ClickTarget := Option Nat

/-- `handleClick(evt)` (lines 119–136): click on the selected image is a
no-op; click on another image hides the old overlays then shows the new;
click on a non-image hides when something is selected. -/
def handleClick (s : RState) (target : Option Nat) : Except String RState :=
  match target with
  | some i =>
    if s.img = some i then .ok s
    else do
      let s ← if s.img.isSome then hide s else .ok s
      return showImg s i
  | none =>
    if s.img.isSome then hide s else .ok s

/-- `checkImage()` (lines 296–300): hides when an image is selected. -/
def checkImage (s : RState) : Except String RState :=
  if s.img.isSome then hide s else .ok s

/-- Width lookup for an image id in the state (`img.width`, `0` when the
element carries no explicit width). -/
def imgWidth (s : RState) (i : Nat) : Int :=
  ((s.widths.filter (·.1 = i)).headD (i, 0)).2

/-- `handleMousedown(evt)` (lines 233–245): records the grabbed box, the
starting `clientX` and the pre-drag width (`this.img.width ||
this.img.naturalWidth`, JS-falsy `0` falling back), sets the drag cursor,
and registers the `document` `mousemove`/`mouseup` listeners (capture
`false`). -/
def handleMousedown (s : RState) (boxId : Nat) (clientX : Int)
    (naturalWidth : Int) : RState :=
  let w := match s.img with
    | some i => if imgWidth s i ≠ 0 then imgWidth s i else naturalWidth
    | none => naturalWidth
  let s := setCursor s "resize"
  { s with
    dragBox := some boxId, dragStartX := some clientX, preDragWidth := some w
    listeners := addListener
      (addListener s.listeners ⟨.doc, "mousemove", "handleDrag", false⟩)
      ⟨.doc, "mouseup", "handleMouseup", false⟩ }

/-- `handleMouseup()` (lines 247–253): resets the cursor and removes the
`mousemove`/`mouseup` listeners — and nothing else. -/
def handleMouseup (s : RState) : RState :=
  let s := setCursor s ""
  { s with
    listeners := removeListener
      (removeListener s.listeners ⟨.doc, "mousemove", "handleDrag", false⟩)
      ⟨.doc, "mouseup", "handleMouseup", false⟩ }

/-- Update the recorded width of image `i`. -/
def setWidth (s : RState) (i : Nat) (w : Int) : RState :=
  { s with widths := (i, w) :: s.widths.filter (·.1 ≠ i) }

/-- `handleDrag(evt)` (lines 255–273): returns at once when `this.img` is
unset; otherwise sets the image width by the left/right handle formula
(`dragBox == boxes[0] || dragBox == boxes[3]` picks the left side; JS
`undefined == undefined` is true, matched by `Option` equality) and
repositions the overlays (style writes).  On the drag path the three
session fields were set by `handleMousedown`; the `getD 0` defaults are
never exercised by a reachable drag (JS would produce `NaN` there). -/
def handleDrag (s : RState) (clientX : Int) : RState :=
  if s.img = none then s
  else
    let i := s.img.getD 0
    let p := s.preDragWidth.getD 0
    let sx := s.dragStartX.getD 0
    if s.dragBox = s.boxes.get? 0 ∨ s.dragBox = s.boxes.get? 3 then
      setWidth s i (dragWidthLeft p clientX sx)
    else
      setWidth s i (dragWidthRight p clientX sx)

/-! ## Size display geometry (`positionSizeDisplay`, `getCurrentSize`) -/

/-- `getCurrentSize()` (lines 352–357): `[width, Math.round(width /
naturalWidth * naturalHeight)]`. -/
def getCurrentSize (width naturalWidth naturalHeight : ℤ) : ℤ × ℤ :=
  (width, round ((width : ℚ) / naturalWidth * naturalHeight))

/-- Where `positionSizeDisplay` placed the label. -/
inductive Placement
  | insideBottomRight
  | outsideBottomRight
  deriving DecidableEq

/-- An image bounding-box rect (`getBoundingClientRect`). -/
structure Rect where
  left : ℚ
  top : ℚ
  width : ℚ
  height : ℚ

/-- Outcome of one `positionSizeDisplay` run: the size pair written as the
label text, the rounded `left`/`top` pixel coordinates, and which branch
placed it. -/
structure DisplayPos where
  size : ℤ × ℤ
  left : ℤ
  top : ℤ
  placement : Placement

/-- `positionSizeDisplay(rect)` (lines 329–350): nothing without a display
element or selected image; otherwise writes the size text and positions
the label — inset inside the bottom-right corner when `size[0] > 120 &&
size[1] > 30`, else outside below-right. -/
def positionSizeDisplay (hasDisplay hasImg : Bool)
    (width naturalWidth naturalHeight : ℤ) (rect : Rect)
    (pageXOffset pageYOffset dispWidth dispHeight : ℚ) : Option DisplayPos :=
  if !hasDisplay || !hasImg then none
  else
    let size := getCurrentSize width naturalWidth naturalHeight
    if 120 < size.1 ∧ 30 < size.2 then
      some ⟨size,
        round (rect.left + rect.width + pageXOffset - dispWidth - 8),
        round (rect.top + rect.height + pageYOffset - dispHeight - 8),
        .insideBottomRight⟩
    else
      some ⟨size,
        round (rect.left + rect.width + pageXOffset + 8),
        round (rect.top + rect.height + pageYOffset + 8),
        .outsideBottomRight⟩

/-! ## Claims -/

/-- C1: the spec says a left-side handle sets the width to
`round(preDragWidth - (clientX - dragStartX))` and a right-side handle to
`round(preDragWidth + (clientX - dragStartX))`.  The source's right-side
branch agrees (`p + c - s = p + (c - s)`), but the left-side branch is
missing the parentheses: at `preDragWidth = 100`, `dragStartX = 50`,
`clientX = 30` (pointer moved 20px left) the code sets the width to `20`
where the spec's formula — and the code's own comment "draging right
shrinks image" taken together with a zero-delta drag keeping the width —
demands `120`. -/
theorem dragWidthLeft_code_bug :
    dragWidthLeft 100 30 50 = 20 ∧
    (100 : Int) - (30 - 50) = 120 ∧
    dragWidthLeft 100 30 50 ≠ 100 - (30 - 50) ∧
    (∀ p c x : Int, dragWidthRight p c x = p + (c - x)) := by
  refine ⟨by decide, by decide, by decide, fun p c x => ?_⟩
  unfold dragWidthRight
  ring

/-- C2, counterexample: with a selection whose `index` is `0` and a
document of length `7`, `insert` targets index `7` (the document end),
not the selection index `0` the claim promises — JS `||` treats the
index `0` as falsy. -/
theorem insert_at_index_zero_counterexample :
    (insert (some 0) 7 "data:image/png;base64,AA").index = 7 ∧
    (insert (some 0) 7 "data:image/png;base64,AA").index ≠ 0 := by
  decide

/-- C2, amended: the embed is inserted at the selection index when that
index is nonzero; when the selection is absent OR its index is `0`, it is
inserted at `getLength()`. -/
theorem insertIndex_amended (i len : Nat) (h : i ≠ 0) :
    insertIndex (some i) len = i ∧
    insertIndex (some 0) len = len ∧
    insertIndex none len = len := by
  unfold insertIndex jsOrNat
  simp [h]

/-- C2, witness: the amended statement at index `5`, length `7`. -/
theorem insertIndex_amended_witness :
    (5 : Nat) ≠ 0 ∧
    (insertIndex (some 5) 7 = 5 ∧ insertIndex (some 0) 7 = 7 ∧
      insertIndex none 7 = 7) :=
  ⟨by decide, insertIndex_amended 5 7 (by decide)⟩

/-- C3: the claim says every deselection trigger completes teardown
without raising an error in every configuration.  With `displaySize`
off the size-display element is never created, yet `hide` calls
`document.body.removeChild(this.display)` unguarded, so a click outside
(`handleClick` with a non-image target) and the keyup/input watcher
(`checkImage`) both throw; with `displaySize` on the same triggers
succeed. -/
theorem hide_throws_without_display :
    (handleClick (showImg (initState false []) 1) none).isOk = false ∧
    (checkImage (showImg (initState false []) 1)).isOk = false ∧
    (handleClick (showImg (initState true []) 1) none).isOk = true ∧
    (checkImage (showImg (initState true []) 1)).isOk = true := by
  decide

/-- C4: the claim says every listener registered for a selection is
removed by the matching teardown.  The per-drag `mousemove`/`mouseup`
listeners are indeed removed by `handleMouseup`, but the capture-phase
`keyup` and `input` watchers added by `showResizers` survive
`hideResizers`, whose `removeEventListener` calls omit the capture flag
and therefore match nothing. -/
theorem keyup_listener_dangles :
    ((hide (showImg (initState true []) 1)).toOption.map fun s =>
      (s.listeners.contains ⟨.doc, "keyup", "checkImage", true⟩,
       s.listeners.contains ⟨.root, "input", "checkImage", true⟩)) =
      some (true, true) ∧
    (handleMouseup (handleMousedown (showImg (initState true []) 1) 0 50 300)).listeners.contains
      ⟨.doc, "mousemove", "handleDrag", false⟩ = false ∧
    (handleMouseup (handleMousedown (showImg (initState true []) 1) 0 50 300)).listeners.contains
      ⟨.doc, "mouseup", "handleMouseup", false⟩ = false := by
  decide

/-- C5: a dropped file that reads as a `Blob` produces exactly one
`insertEmbed` call carrying its data URI iff its MIME type matches the
accepted image regex; every accepted type of the claim matches (the
regex also accepts `image/jpg`) and `application/pdf` produces zero
insertions and no error. -/
theorem readFiles_image_mime_filter :
    (∀ (t d : String) (sel : Option Nat) (len : Nat),
      handleDrop [⟨t, some d⟩] sel len =
        if matchesImageMime t then [insert sel len d] else []) ∧
    (["image/gif", "image/jpeg", "image/jpg", "image/png", "image/apng",
      "image/svg+xml", "image/webp", "image/bmp",
      "image/vnd.microsoft.icon"].all matchesImageMime = true) ∧
    matchesImageMime "application/pdf" = false := by
  refine ⟨fun t d sel len => ?_, by decide, by decide⟩
  by_cases h : matchesImageMime t <;> simp [handleDrop, readFiles, readFile, h]

/-- C6: for a paste carrying one readable image item, the callback
performs zero insertions of its own when `getSelection()` is non-null at
read-completion time, and schedules exactly one deferred insertion when
it is null. -/
theorem paste_deferred_insertion (t d : String) (sel : Option Nat)
    (h : matchesImageMime t = true) :
    handlePasteScheduled [⟨t, some d⟩] sel =
      match sel with
      | some _ => []
      | none => [d] := by
  cases sel <;> simp [handlePasteScheduled, readFiles, readFile, h]

/-- C6, witness: a pasted `image/png` item with and without a selection. -/
theorem paste_deferred_insertion_witness :
    matchesImageMime "image/png" = true ∧
    handlePasteScheduled [⟨"image/png", some "data:image/png;base64,AA"⟩] none =
      ["data:image/png;base64,AA"] ∧
    handlePasteScheduled [⟨"image/png", some "data:image/png;base64,AA"⟩] (some 3) = [] :=
  ⟨by decide,
   paste_deferred_insertion "image/png" "data:image/png;base64,AA" none (by decide),
   paste_deferred_insertion "image/png" "data:image/png;base64,AA" (some 3) (by decide)⟩

/-- C7, counterexample: after a handle mousedown (box `0`, `clientX = 50`,
pre-drag width `300`) followed by a mouseup, all three drag-session
fields are still set — `handleMouseup` only resets the cursor and the
drag listeners, contradicting the claim that every mouseup clears them. -/
theorem mouseup_keeps_drag_fields :
    (handleMouseup (handleMousedown (showImg (initState true []) 1) 0 50 300)).dragBox =
      some 0 ∧
    (handleMouseup (handleMousedown (showImg (initState true []) 1) 0 50 300)).dragStartX =
      some 50 ∧
    (handleMouseup (handleMousedown (showImg (initState true []) 1) 0 50 300)).preDragWidth =
      some 300 := by
  decide

/-- C7, amended: every mouseup restores the cursor and detaches the
`mousemove`/`mouseup` drag listeners while leaving the image selection
and its overlays in place, but it does NOT clear the three drag-session
fields — those are cleared only by handle teardown (`hideResizers`). -/
theorem mouseup_amended (s : RState) :
    (handleMouseup s).cursor = "" ∧
    (handleMouseup s).listeners =
      removeListener (removeListener s.listeners ⟨.doc, "mousemove", "handleDrag", false⟩)
        ⟨.doc, "mouseup", "handleMouseup", false⟩ ∧
    (handleMouseup s).dragBox = s.dragBox ∧
    (handleMouseup s).dragStartX = s.dragStartX ∧
    (handleMouseup s).preDragWidth = s.preDragWidth ∧
    (handleMouseup s).img = s.img ∧
    (handleMouseup s).boxes = s.boxes ∧
    (handleMouseup s).display = s.display ∧
    (handleMouseup s).body = s.body :=
  ⟨rfl, rfl, rfl, rfl, rfl, rfl, rfl, rfl, rfl⟩

/-- C8: with `displaySize` on, clicking image `2` while image `1` is
selected tears `1`'s overlays down and builds `2`'s (exactly the four
new boxes and the new display remain in `document.body`), and clicking
the already-selected image changes nothing; but with `displaySize` off
the same second click throws inside `hide` (unguarded
`removeChild(this.display)`), so image `2` is never selected and the
claimed invariant fails for that configuration. -/
theorem click_second_image_crash :
    ((handleClick (initState false []) (some 1)).bind fun s =>
      handleClick s (some 2)).isOk = false ∧
    ((handleClick (initState true []) (some 1)).bind fun s =>
      handleClick s (some 2)).toOption.map
        (fun s => (s.img, s.boxes, s.display, s.body)) =
      some (some 2, [5, 6, 7, 8], some 9, [5, 6, 7, 8, 9]) ∧
    ((handleClick (initState true []) (some 1)).bind fun s =>
      handleClick s (some 1)).toOption =
      (handleClick (initState true []) (some 1)).toOption := by
  decide

/-- C9: whenever `positionSizeDisplay` actually positions the label, the
displayed pair is the current width and
`round(width * naturalHeight / naturalWidth)`, and the label is placed
inside the bottom-right corner exactly when width `> 120` and computed
height `> 30`, otherwise outside below-right. -/
theorem sizeDisplay_height_and_placement (w nw nh : ℤ) (rect : Rect)
    (pX pY dW dH : ℚ) (dp : DisplayPos) (hnw : 0 < nw)
    (h : positionSizeDisplay true true w nw nh rect pX pY dW dH = some dp) :
    dp.size.1 = w ∧ dp.size.2 = round ((w : ℚ) * nh / nw) ∧
      (dp.placement = Placement.insideBottomRight ↔ 120 < w ∧ 30 < dp.size.2) := by
  unfold positionSizeDisplay getCurrentSize at h
  simp only [Bool.not_true, Bool.or_self, Bool.false_eq_true, if_false] at h
  rw [div_mul_eq_mul_div] at h
  split at h
  case isTrue hc =>
    cases h
    exact ⟨rfl, rfl, by simpa using hc⟩
  case isFalse hc =>
    cases h
    refine ⟨rfl, rfl, ?_⟩
    simp only [show (Placement.outsideBottomRight = Placement.insideBottomRight) ↔ False from
      ⟨fun hh => Placement.noConfusion hh, False.elim⟩, false_iff]
    exact fun hcond => hc (by simpa using hcond)

/-- C9, witness: a 200-wide image with natural size 100×50 at rect
(0,0,200,100), label box 40×20: height 100, placed inside bottom-right
at (152, 72). -/
theorem sizeDisplay_height_and_placement_witness :
    (DisplayPos.mk (200, 100) 152 72 Placement.insideBottomRight).size.1 = 200 ∧
    (DisplayPos.mk (200, 100) 152 72 Placement.insideBottomRight).size.2 =
      round ((200 : ℚ) * 50 / 100) ∧
    ((DisplayPos.mk (200, 100) 152 72 Placement.insideBottomRight).placement =
        Placement.insideBottomRight ↔
      120 < (200 : ℤ) ∧
        30 < (DisplayPos.mk (200, 100) 152 72 Placement.insideBottomRight).size.2) :=
  sizeDisplay_height_and_placement 200 100 50 ⟨0, 0, 200, 100⟩ 0 0 40 20
    ⟨(200, 100), 152, 72, Placement.insideBottomRight⟩ (by norm_num)
    (by unfold positionSizeDisplay getCurrentSize; norm_num [round_eq])

/-- C10: a mousemove delivered to `handleDrag` while no image is selected
leaves the whole controller state untouched. -/
theorem drag_without_selection_noop (s : RState) (clientX : Int)
    (h : s.img = none) :
    handleDrag s clientX = s := by
  simp [handleDrag, h]

/-- C10, witness: a stray mousemove at `clientX = 5` on a fresh
controller. -/
theorem drag_without_selection_noop_witness :
    (initState true []).img = none ∧
    handleDrag (initState true []) 5 = initState true [] :=
  ⟨rfl, drag_without_selection_noop (initState true []) 5 rfl⟩

end QuillImageDrop
